import Mathlib

/-!
Verification development for the KubeFleet admission-control layer:
the v1beta1 ResourcePlacement validating webhook, the webhook routing
path constants, the webhook configuration builders, and the
certificate-sourcing logic.

Definitions are shallow embeddings of the Go source under
`pkg/webhook/resourceplacement/v1beta1_resourceplacement_validating_webhook.go`
and the v1beta1 ClusterResourcePlacement webhook; parts of the
repository that are referenced but whose bodies are not in the source
tree (the validator collaborators, `pkg/webhook/webhook.go`, the utils
constants) are modelled from the specification, as marked in doc
comments.
-/

namespace KubeFleet

/-- Admission operations carried by an admission request. -/
inductive Operation where
  | create
  | update
  | delete
  | connect
deriving DecidableEq, Repr

/-- A toleration entry of a placement policy, compared by whole-object
structural equality (the fields of the Go `Toleration` struct). -/
structure Toleration where
  key : String
  operator : String
  value : String
  effect : String
deriving DecidableEq, Repr

/-- A placement policy: the placement type together with its tolerations. -/
structure PlacementPolicy where
  placementType : String
  tolerations : List Toleration
deriving DecidableEq, Repr

/-- The spec of a placement object; the policy pointer may be nil. -/
structure PlacementSpec where
  policy : Option PlacementPolicy
deriving DecidableEq, Repr

/-- A v1beta1 ResourcePlacement object as the webhook reads it: name,
optional deletion timestamp, and spec. -/
structure ResourcePlacement where
  name : String
  deletionTimestamp : Option String
  spec : PlacementSpec
deriving DecidableEq, Repr

/-- Modelled from the spec: the `Tolerations` accessor on the placement
spec is not under src; the spec says the placement object exposes its
tolerations as a set, and that absence of optional fields is treated as
a zero/empty value for the monotonicity check. -/
def PlacementSpec.specTolerations (s : PlacementSpec) : List Toleration :=
  match s.policy with
  | none => []
  | some p => p.tolerations

/-- Modelled from the spec: the `placementType` accessor used by the
immutability check; absence of the optional policy is treated as a
zero/empty value, per the spec's failure-semantics paragraph. -/
def placementTypeOrDefault (p : Option PlacementPolicy) : String :=
  match p with
  | none => ""
  | some pol => pol.placementType

/-- Modelled from the spec: `validator.IsPlacementPolicyTypeUpdated` is
not under src; the spec says the update is rejected when `placementType`
differs between old and new. -/
def IsPlacementPolicyTypeUpdated (oldPolicy currentPolicy : Option PlacementPolicy) : Bool :=
  decide (placementTypeOrDefault oldPolicy ≠ placementTypeOrDefault currentPolicy)

/-- Modelled from the spec: `validator.IsTolerationsUpdatedOrDeleted` is
not under src; the spec says every toleration present before an update
must remain present, unchanged, after it (order-independent structural
membership), so the check fires exactly when some old entry is missing
from the new set. -/
def IsTolerationsUpdatedOrDeleted (oldTolerations newTolerations : List Toleration) : Bool :=
  oldTolerations.any fun t => decide (t ∉ newTolerations)

/-- The admission response returned by the handler, mirroring
`admission.Allowed`, `admission.Denied` and `admission.Errored`. -/
inductive AdmissionResponse where
  | allowed (reason : String)
  | denied (reason : String)
  | errored (code : Nat) (msg : String)
deriving DecidableEq, Repr

/-- An admission request as the ResourcePlacement handler consumes it.
The decoder collaborator is represented by the decode outcomes of the
raw new and old payloads. -/
structure AdmissionRequest where
  operation : Operation
  objectDecode : Except String ResourcePlacement
  oldObjectDecode : Except String ResourcePlacement

/-- Source constant `allowUpdateOldInvalidRPFmt` (webhook file, line 38). -/
def allowUpdateOldInvalidRPFmt : String :=
  "allow update on old invalid v1beta1 RP with DeletionTimestamp set"

/-- Source constant `denyUpdateOldInvalidRPFmt` (line 39), with the
trailing format placeholder filled by the validation error text. -/
def denyUpdateOldInvalidRPMsg (err : String) : String :=
  "deny update on old invalid v1beta1 RP with DeletionTimestamp not set " ++ err

/-- Source constant `denyCreateUpdateInvalidRPFmt` (line 40), with the
trailing format placeholder filled by the validation error text. -/
def denyCreateUpdateInvalidRPMsg (err : String) : String :=
  "deny create/update v1beta1 RP has invalid fields " ++ err

/-- The deny reason for the toleration monotonicity check (line 87). -/
def denyTolerationsMsg : String :=
  "tolerations have been updated/deleted, only additions to tolerations are allowed"

/-- The final allow reason (line 96). -/
def allowAnyUserMsg : String :=
  "any user is allowed to modify v1beta1 RP"

/-- The update-only portion of `resourcePlacementValidator.Handle`
(lines 68-88): decode the old object, apply the invalid-old-object
exception, the placement-type immutability check and the toleration
monotonicity check. `some r` is an early return with response `r`;
`none` falls through to the final static validation. The static
validator collaborator `validate` returns `some err` exactly when the
Go `validator.ValidateResourcePlacement` returns a non-nil error. -/
def updateChecks (validate : ResourcePlacement → Option String)
    (req : AdmissionRequest) (rp : ResourcePlacement) : Option AdmissionResponse :=
  if req.operation = Operation.update then
    match req.oldObjectDecode with
    | Except.error e => some (AdmissionResponse.errored 400 e)
    | Except.ok oldRP =>
      match validate oldRP with
      | some err =>
        if rp.deletionTimestamp.isSome then
          some (AdmissionResponse.allowed allowUpdateOldInvalidRPFmt)
        else
          some (AdmissionResponse.denied (denyUpdateOldInvalidRPMsg err))
      | none =>
        if IsPlacementPolicyTypeUpdated oldRP.spec.policy rp.spec.policy then
          some (AdmissionResponse.denied "placement type is immutable")
        else if IsTolerationsUpdatedOrDeleted oldRP.spec.specTolerations rp.spec.specTolerations then
          some (AdmissionResponse.denied denyTolerationsMsg)
        else
          none
  else
    none

/-- The final static validation of the new object (lines 90-93) and the
closing allow (line 96). -/
def finalValidation (validate : ResourcePlacement → Option String)
    (rp : ResourcePlacement) : AdmissionResponse :=
  match validate rp with
  | some err => AdmissionResponse.denied (denyCreateUpdateInvalidRPMsg err)
  | none => AdmissionResponse.allowed allowAnyUserMsg

/-- `resourcePlacementValidator.Handle` (lines 60-97), parameterised by
the static validator collaborator. -/
def Handle (validate : ResourcePlacement → Option String)
    (req : AdmissionRequest) : AdmissionResponse :=
  if req.operation = Operation.create ∨ req.operation = Operation.update then
    match req.objectDecode with
    | Except.error e => AdmissionResponse.errored 400 e
    | Except.ok rp =>
      match updateChecks validate req rp with
      | some resp => resp
      | none => finalValidation validate rp
  else
    AdmissionResponse.allowed allowAnyUserMsg

/-- Modelled from the spec: `utils.ValidationPathFmt` is not under src;
the spec says webhook paths follow a deterministic template keyed by API
group, version and kind. -/
def ValidationPathFmt (group version kind : String) : String :=
  "/validate-" ++ group ++ "-" ++ version ++ "-" ++ kind

/-- Modelled from the spec: the placement API group constant of
`apis/placement/v1beta1` is not under src. -/
def placementGroup : String := "placement.kubernetes-fleet.io"

/-- Modelled from the spec: the placement API version constant of
`apis/placement/v1beta1` is not under src. -/
def placementVersion : String := "v1beta1"

/-- `ValidationPath` of package `resourceplacement`
(v1beta1_resourceplacement_validating_webhook.go, line 45). Note the
kind argument in the source is the literal "clusterresourceplacement". -/
def rpValidationPath : String :=
  ValidationPathFmt placementGroup placementVersion "clusterresourceplacement"

/-- `ValidationPath` of package `clusterresourceplacement`
(the CRP webhook file, line 35). -/
def crpValidationPath : String :=
  ValidationPathFmt placementGroup placementVersion "clusterresourceplacement"

/-- Modelled from the spec: the webhook `Config`
(pkg/webhook/webhook.go) is not under src, only its tests; the fields
follow the spec's data model. -/
structure Config where
  serviceNamespace : String
  serviceName : String
  servicePort : Int
  serviceURL : String
  clientConnectionType : Option String
  enableGuardRail : Bool
  denyModifyMemberClusterLabels : Bool
  enableWorkload : Bool
  useCertManager : Bool
deriving DecidableEq, Repr

/-- A webhook rule descriptor, per the spec's data model: routing path,
client-config service data and the covered resources. -/
structure WebhookRuleDescriptor where
  webhookName : String
  path : String
  serviceNamespace : String
  serviceName : String
  servicePort : Int
  resources : List String
deriving DecidableEq, Repr

/-- Modelled from the spec: descriptor construction helper; each
descriptor is a pure function of the Config and the covered resource. -/
def Config.mkDescriptor (c : Config) (hookName : String) (resources : List String) :
    WebhookRuleDescriptor :=
  ⟨hookName, "/validate-" ++ hookName, c.serviceNamespace, c.serviceName,
    c.servicePort, resources⟩

/-- Modelled from the spec: `Config.buildFleetMutatingWebhooks`
(pkg/webhook/webhook.go) is not under src, only its tests; the spec says
it produces exactly one descriptor, independent of all flags. -/
def Config.buildFleetMutatingWebhooks (c : Config) : List WebhookRuleDescriptor :=
  [c.mkDescriptor "fleet.mutating.pod" ["pods"]]

/-- Modelled from the spec: `Config.buildFleetValidatingWebhooks`
(pkg/webhook/webhook.go) is not under src, only its tests; the spec says
it produces 8 descriptors by default and, when `enableWorkload` is true,
workload-specific validators supersede two of the generic ones, yielding
6. -/
def Config.buildFleetValidatingWebhooks (c : Config) : List WebhookRuleDescriptor :=
  let common :=
    [c.mkDescriptor "fleet.validating.clusterresourceplacement" ["clusterresourceplacements"],
     c.mkDescriptor "fleet.validating.resourceplacement" ["resourceplacements"],
     c.mkDescriptor "fleet.validating.clusterresourceoverride" ["clusterresourceoverrides"],
     c.mkDescriptor "fleet.validating.resourceoverride" ["resourceoverrides"],
     c.mkDescriptor "fleet.validating.membercluster" ["memberclusters"],
     c.mkDescriptor "fleet.validating.clusterresourceplacementeviction"
       ["clusterresourceplacementevictions"]]
  if c.enableWorkload then
    common
  else
    common ++
      [c.mkDescriptor "fleet.validating.placementworkload" ["placementworkloads"],
       c.mkDescriptor "fleet.validating.placementschedule" ["placementschedules"]]

/-- Modelled from the spec: `Config.buildFleetGuardRailValidatingWebhooks`
(pkg/webhook/webhook.go) is not under src, only its tests; the spec says
it produces 6 descriptors, with `denyModifyMemberClusterLabels`
controlling whether label-protection rules for cluster-membership
objects are among them. -/
def Config.buildFleetGuardRailValidatingWebhooks (c : Config) : List WebhookRuleDescriptor :=
  [c.mkDescriptor "guardrail.namespacedresources" ["namespacedresources"],
   c.mkDescriptor "guardrail.fleetmembernamespacedresources" ["fleetmembernamespacedresources"],
   c.mkDescriptor "guardrail.fleetsystemnamespacedresources" ["fleetsystemnamespacedresources"],
   c.mkDescriptor "guardrail.kubesystemnamespacedresources" ["kubesystemnamespacedresources"],
   c.mkDescriptor "guardrail.namespace" ["namespaces"],
   (if c.denyModifyMemberClusterLabels then
      c.mkDescriptor "guardrail.membercluster.labels" ["memberclusters"]
    else
      c.mkDescriptor "guardrail.membercluster" ["memberclusters"])]

/-- A string contains a pattern when it decomposes around it. -/
def StringContains (s pat : String) : Prop := ∃ a b, s = a ++ pat ++ b

/-- The fixed name of the CA file read in cert-manager mode. -/
def caFileName : String := "ca.crt"

/-- The not-found error message returned when ca.crt is absent. -/
def caNotFoundMsg (caPath : String) : String :=
  "failed to read CA certificate from " ++ caPath

/-- The error message returned when ca.crt is present but zero-length. -/
def caEmptyMsg (caPath : String) : String :=
  "CA certificate file " ++ caPath ++ " is empty"

/-- Modelled from the spec: `Config.loadCertManagerCA`
(pkg/webhook/webhook.go) is not under src, only its tests. The spec says
`loadExternalCA` reads a CA file from `certDir`, failing with a
not-found error when the file is absent, with an error whose message
mentions "empty" when the file is zero-length, and returning the file's
bytes byte-identically otherwise. The filesystem is passed as a map from
path to optional byte contents. -/
def loadCertManagerCA (fs : String → Option (List Nat)) (certDir : String) :
    Except String (List Nat) :=
  let caPath := certDir ++ "/" ++ caFileName
  match fs caPath with
  | none => Except.error (caNotFoundMsg caPath)
  | some bytes =>
    if bytes.isEmpty then Except.error (caEmptyMsg caPath)
    else Except.ok bytes

/-- The error-wrapping prefix used when the cert-manager CA load fails. -/
def certManagerLoadFailMsg (e : String) : String :=
  "failed to load cert-manager CA certificate: " ++ e

/-- The error-wrapping prefix used when self-signed generation fails. -/
def selfSignedGenFailMsg (e : String) : String :=
  "failed to generate self-signed certificate: " ++ e

/-- Modelled from the spec: `NewWebhookConfig` (pkg/webhook/webhook.go)
is not under src, only its tests. The spec says exactly one
certificate-sourcing strategy executes per Config, selected by the
`useCertManager` flag, a failure in the selected path is fatal, and
there is no fallback between the two. The outcomes of the two
strategies (loading the cert-manager CA; generating a self-signed
certificate) are passed as values; the result is the CA material the
Config carries. -/
def NewWebhookConfig (useCertManager : Bool)
    (loadCAResult genCertResult : Except String (List Nat)) :
    Except String (List Nat) :=
  if useCertManager then
    match loadCAResult with
    | Except.error e => Except.error (certManagerLoadFailMsg e)
    | Except.ok ca => Except.ok ca
  else
    match genCertResult with
    | Except.error e => Except.error (selfSignedGenFailMsg e)
    | Except.ok ca => Except.ok ca

lemma isTolerationsUpdatedOrDeleted_iff (a b : List Toleration) :
    IsTolerationsUpdatedOrDeleted a b = true ↔ ∃ t ∈ a, t ∉ b := by
  simp [IsTolerationsUpdatedOrDeleted, List.any_eq_true]

/-- Claim C1: for every Update request whose old object fails static
validation, the decision is Allow unconditionally when the new object
carries a deletion marker — bypassing all remaining checks, including
static validation of the new object — and Deny when the new object has
no deletion marker. -/
theorem handle_update_oldInvalid (validate : ResourcePlacement → Option String)
    (req : AdmissionRequest) (rp oldRP : ResourcePlacement) (err : String)
    (hop : req.operation = Operation.update)
    (hnew : req.objectDecode = Except.ok rp)
    (hold : req.oldObjectDecode = Except.ok oldRP)
    (hinv : validate oldRP = some err) :
    (rp.deletionTimestamp.isSome = true →
        Handle validate req = AdmissionResponse.allowed allowUpdateOldInvalidRPFmt) ∧
    (rp.deletionTimestamp = none →
        Handle validate req = AdmissionResponse.denied (denyUpdateOldInvalidRPMsg err)) := by
  constructor <;> intro h <;>
    simp [Handle, updateChecks, hop, hnew, hold, hinv, h]

/-- Witness for C1: a concrete old-invalid update carrying a deletion
marker is allowed, even though the new object is itself invalid under
the same validator. -/
theorem handle_update_oldInvalid_witness :
    Handle (fun _ => some "e")
      ⟨Operation.update,
        Except.ok ⟨"rp", some "2025-01-01T00:00:00Z", ⟨none⟩⟩,
        Except.ok ⟨"rp", none, ⟨none⟩⟩⟩
      = AdmissionResponse.allowed allowUpdateOldInvalidRPFmt :=
  (handle_update_oldInvalid (fun _ => some "e")
      ⟨Operation.update,
        Except.ok ⟨"rp", some "2025-01-01T00:00:00Z", ⟨none⟩⟩,
        Except.ok ⟨"rp", none, ⟨none⟩⟩⟩
      ⟨"rp", some "2025-01-01T00:00:00Z", ⟨none⟩⟩
      ⟨"rp", none, ⟨none⟩⟩ "e" rfl rfl rfl rfl).1 rfl

/-- Claim C2: for every Update request whose old object passes static
validation and whose placement type differs between old and new, the
decision is Deny with reason "placement type is immutable". -/
theorem handle_update_placementType_immutable
    (validate : ResourcePlacement → Option String)
    (req : AdmissionRequest) (rp oldRP : ResourcePlacement)
    (hop : req.operation = Operation.update)
    (hnew : req.objectDecode = Except.ok rp)
    (hold : req.oldObjectDecode = Except.ok oldRP)
    (hvalid : validate oldRP = none)
    (hty : placementTypeOrDefault oldRP.spec.policy ≠ placementTypeOrDefault rp.spec.policy) :
    Handle validate req = AdmissionResponse.denied "placement type is immutable" := by
  simp [Handle, updateChecks, hop, hnew, hold, hvalid,
    IsPlacementPolicyTypeUpdated, hty]

/-- Witness for C2: changing the placement type from PickAll to
PickFixed on an otherwise-valid object is denied as immutable. -/
theorem handle_update_placementType_immutable_witness :
    Handle (fun _ => none)
      ⟨Operation.update,
        Except.ok ⟨"rp", none, ⟨some ⟨"PickFixed", []⟩⟩⟩,
        Except.ok ⟨"rp", none, ⟨some ⟨"PickAll", []⟩⟩⟩⟩
      = AdmissionResponse.denied "placement type is immutable" :=
  handle_update_placementType_immutable (fun _ => none)
      ⟨Operation.update,
        Except.ok ⟨"rp", none, ⟨some ⟨"PickFixed", []⟩⟩⟩,
        Except.ok ⟨"rp", none, ⟨some ⟨"PickAll", []⟩⟩⟩⟩
      ⟨"rp", none, ⟨some ⟨"PickFixed", []⟩⟩⟩
      ⟨"rp", none, ⟨some ⟨"PickAll", []⟩⟩⟩
      rfl rfl rfl rfl (by decide)

/-- Claim C3: for every Update request with a valid old object and an
unchanged placement type, the decision is Deny as soon as some old
toleration is missing or altered in the new set (order-independent
structural membership), while a new set that contains every old
toleration lets the decision fall through to the final static
validation of the new object. -/
theorem handle_update_tolerations (validate : ResourcePlacement → Option String)
    (req : AdmissionRequest) (rp oldRP : ResourcePlacement)
    (hop : req.operation = Operation.update)
    (hnew : req.objectDecode = Except.ok rp)
    (hold : req.oldObjectDecode = Except.ok oldRP)
    (hvalid : validate oldRP = none)
    (hty : placementTypeOrDefault oldRP.spec.policy = placementTypeOrDefault rp.spec.policy) :
    ((∃ t ∈ oldRP.spec.specTolerations, t ∉ rp.spec.specTolerations) →
        Handle validate req = AdmissionResponse.denied denyTolerationsMsg) ∧
    ((∀ t ∈ oldRP.spec.specTolerations, t ∈ rp.spec.specTolerations) →
        Handle validate req = finalValidation validate rp) := by
  constructor
  · intro hex
    have htol : IsTolerationsUpdatedOrDeleted oldRP.spec.specTolerations
        rp.spec.specTolerations = true :=
      (isTolerationsUpdatedOrDeleted_iff _ _).mpr hex
    simp [Handle, updateChecks, hop, hnew, hold, hvalid,
      IsPlacementPolicyTypeUpdated, hty, htol]
  · intro hsub
    have htol : IsTolerationsUpdatedOrDeleted oldRP.spec.specTolerations
        rp.spec.specTolerations = false := by
      rw [Bool.eq_false_iff]
      intro hc
      obtain ⟨t, ht, hnt⟩ := (isTolerationsUpdatedOrDeleted_iff _ _).mp hc
      exact hnt (hsub t ht)
    simp [Handle, updateChecks, hop, hnew, hold, hvalid,
      IsPlacementPolicyTypeUpdated, hty, htol]

/-- Witness for C3: removing the single old toleration is denied. -/
theorem handle_update_tolerations_witness :
    Handle (fun _ => none)
      ⟨Operation.update,
        Except.ok ⟨"rp", none, ⟨some ⟨"PickAll", []⟩⟩⟩,
        Except.ok ⟨"rp", none, ⟨some ⟨"PickAll", [⟨"k", "Equal", "v", "NoSchedule"⟩]⟩⟩⟩⟩
      = AdmissionResponse.denied denyTolerationsMsg :=
  (handle_update_tolerations (fun _ => none)
      ⟨Operation.update,
        Except.ok ⟨"rp", none, ⟨some ⟨"PickAll", []⟩⟩⟩,
        Except.ok ⟨"rp", none, ⟨some ⟨"PickAll", [⟨"k", "Equal", "v", "NoSchedule"⟩]⟩⟩⟩⟩
      ⟨"rp", none, ⟨some ⟨"PickAll", []⟩⟩⟩
      ⟨"rp", none, ⟨some ⟨"PickAll", [⟨"k", "Equal", "v", "NoSchedule"⟩]⟩⟩⟩
      rfl rfl rfl rfl rfl).1 (by decide)

/-- Claim C4, evaluated on the source: the ResourcePlacement webhook's
`ValidationPath` and the ClusterResourcePlacement webhook's
`ValidationPath` are the SAME string, because the ResourcePlacement
file passes the literal "clusterresourceplacement" as the kind argument
of the path template; the paths are not distinct per kind. -/
theorem rpValidationPath_eq_crpValidationPath :
    rpValidationPath = crpValidationPath := rfl

/-- Claim C5: `buildFleetValidatingWebhooks` returns exactly 8
descriptors when `enableWorkload` is false and exactly 6 when it is
true. -/
theorem buildFleetValidatingWebhooks_length (c : Config) :
    (c.buildFleetValidatingWebhooks).length = if c.enableWorkload then 6 else 8 := by
  cases h : c.enableWorkload <;> simp [Config.buildFleetValidatingWebhooks, h]

/-- Claim C6: `loadCertManagerCA` returns a not-found error on a missing
ca.crt that is distinct from the empty-file error, an error whose
message contains "empty" on a zero-length ca.crt, and the byte-identical
contents of a populated ca.crt. -/
theorem loadCertManagerCA_spec (fs : String → Option (List Nat)) (dir : String) :
    (fs (dir ++ "/" ++ caFileName) = none →
        loadCertManagerCA fs dir
            = Except.error (caNotFoundMsg (dir ++ "/" ++ caFileName)) ∧
        caNotFoundMsg (dir ++ "/" ++ caFileName)
            ≠ caEmptyMsg (dir ++ "/" ++ caFileName)) ∧
    (fs (dir ++ "/" ++ caFileName) = some [] →
        loadCertManagerCA fs dir
            = Except.error (caEmptyMsg (dir ++ "/" ++ caFileName)) ∧
        StringContains (caEmptyMsg (dir ++ "/" ++ caFileName)) "empty") ∧
    (∀ bytes, fs (dir ++ "/" ++ caFileName) = some bytes → bytes ≠ [] →
        loadCertManagerCA fs dir = Except.ok bytes) := by
  refine ⟨?_, ?_, ?_⟩
  · intro h
    refine ⟨by simp [loadCertManagerCA, h], ?_⟩
    intro heq
    have h1 := congrArg String.length heq
    simp only [caNotFoundMsg, caEmptyMsg, String.length_append] at h1
    have e1 : ("failed to read CA certificate from ").length = 35 := rfl
    have e2 : ("CA certificate file ").length = 20 := rfl
    have e3 : (" is empty").length = 9 := rfl
    rw [e1, e2, e3] at h1
    omega
  · intro h
    refine ⟨by simp [loadCertManagerCA, h], ?_⟩
    refine ⟨"CA certificate file " ++ (dir ++ "/" ++ caFileName) ++ " is ", "", ?_⟩
    simp only [caEmptyMsg, String.append_empty, String.append_assoc]
    rfl
  · intro bytes h hne
    simp [loadCertManagerCA, h, List.isEmpty_iff, hne]

/-- Witness for C6: a filesystem carrying an empty /certs/ca.crt makes
`loadCertManagerCA` fail with the empty-file message, which contains
"empty". -/
theorem loadCertManagerCA_spec_witness :
    loadCertManagerCA (fun p => if p = "/certs/ca.crt" then some [] else none) "/certs"
        = Except.error (caEmptyMsg ("/certs" ++ "/" ++ caFileName)) ∧
    StringContains (caEmptyMsg ("/certs" ++ "/" ++ caFileName)) "empty" :=
  (loadCertManagerCA_spec
      (fun p => if p = "/certs/ca.crt" then some [] else none) "/certs").2.1 rfl

/-- Claim C7: `NewWebhookConfig` runs exactly one certificate-sourcing
strategy, selected by `useCertManager`: a cert-manager CA load failure
is surfaced with the cert-manager wrapping message, a self-signed
generation failure with the self-signed wrapping message, and in each
mode the result is independent of the other strategy's outcome — there
is no fallback. -/
theorem newWebhookConfig_exclusive (l g : Except String (List Nat)) :
    (∀ e, l = Except.error e →
        NewWebhookConfig true l g = Except.error (certManagerLoadFailMsg e)) ∧
    (∀ e, g = Except.error e →
        NewWebhookConfig false l g = Except.error (selfSignedGenFailMsg e)) ∧
    (∀ g2, NewWebhookConfig true l g = NewWebhookConfig true l g2) ∧
    (∀ l2, NewWebhookConfig false l g = NewWebhookConfig false l2 g) := by
  refine ⟨?_, ?_, ?_, ?_⟩
  · intro e h; simp [NewWebhookConfig, h]
  · intro e h; simp [NewWebhookConfig, h]
  · intro g2; simp [NewWebhookConfig]
  · intro l2; simp [NewWebhookConfig]

/-- Witness for C7: with `useCertManager` set, a failed CA load is fatal
with the cert-manager message even though the self-signed strategy would
have succeeded. -/
theorem newWebhookConfig_exclusive_witness :
    NewWebhookConfig true (Except.error "open /certs/ca.crt: no such file")
        (Except.ok [1, 2])
        = Except.error (certManagerLoadFailMsg "open /certs/ca.crt: no such file") :=
  (newWebhookConfig_exclusive (Except.error "open /certs/ca.crt: no such file")
      (Except.ok [1, 2])).1 "open /certs/ca.crt: no such file" rfl

/-- Claim C8: a Create or Update request whose new object fails to
decode, or an Update request whose old object fails to decode, yields
the protocol-level HTTP 400 admission error, never a policy Deny. -/
theorem handle_decodeError (validate : ResourcePlacement → Option String)
    (req : AdmissionRequest) (e : String)
    (hop : req.operation = Operation.create ∨ req.operation = Operation.update) :
    (req.objectDecode = Except.error e →
        Handle validate req = AdmissionResponse.errored 400 e) ∧
    (∀ rp, req.operation = Operation.update → req.objectDecode = Except.ok rp →
        req.oldObjectDecode = Except.error e →
        Handle validate req = AdmissionResponse.errored 400 e) := by
  constructor
  · intro h
    rcases hop with hc | hu
    · simp [Handle, hc, h]
    · simp [Handle, hu, h]
  · intro rp hu hnew hold
    simp [Handle, updateChecks, hu, hnew, hold]

/-- Witness for C8: a create request with an undecodable payload gets
the 400 admission error. -/
theorem handle_decodeError_witness :
    Handle (fun _ => none)
      ⟨Operation.create, Except.error "json: cannot unmarshal", Except.error "n/a"⟩
      = AdmissionResponse.errored 400 "json: cannot unmarshal" :=
  (handle_decodeError (fun _ => none)
      ⟨Operation.create, Except.error "json: cannot unmarshal", Except.error "n/a"⟩
      "json: cannot unmarshal" (Or.inl rfl)).1 rfl

/-- Claim C9: each builder is deterministic — two calls on the same
Config produce structurally identical descriptor sequences; in this
embedding the builders are pure functions of the Config, so the deep
equality holds definitionally. -/
theorem buildWebhooks_deterministic (c : Config) :
    c.buildFleetMutatingWebhooks = c.buildFleetMutatingWebhooks ∧
    c.buildFleetValidatingWebhooks = c.buildFleetValidatingWebhooks ∧
    c.buildFleetGuardRailValidatingWebhooks = c.buildFleetGuardRailValidatingWebhooks :=
  ⟨rfl, rfl, rfl⟩

/-- Claim C10: a request whose operation is neither Create nor Update is
allowed without decoding the payloads and without running any check: the
response is the closing Allow for every validator outcome and every
decode outcome. -/
theorem handle_nonCreateUpdate_allowed (validate : ResourcePlacement → Option String)
    (req : AdmissionRequest)
    (h1 : req.operation ≠ Operation.create)
    (h2 : req.operation ≠ Operation.update) :
    Handle validate req = AdmissionResponse.allowed allowAnyUserMsg := by
  simp [Handle, h1, h2]

/-- Witness for C10: a delete request with undecodable payloads and a
rejecting validator is still allowed. -/
theorem handle_nonCreateUpdate_allowed_witness :
    Handle (fun _ => some "invalid fields")
      ⟨Operation.delete, Except.error "bad new", Except.error "bad old"⟩
      = AdmissionResponse.allowed allowAnyUserMsg :=
  handle_nonCreateUpdate_allowed (fun _ => some "invalid fields")
    ⟨Operation.delete, Except.error "bad new", Except.error "bad old"⟩
    (by decide) (by decide)

end KubeFleet
